import Mathlib

/-!
Verification development for the kepler-model-server estimator component
(src/kepler_model/estimate/estimator.py).

The estimator is embedded shallowly:

* External collaborators (the remote model server, the archived-model lookup,
  the model loader, the concrete model objects, and the JSON decoder) are
  modeled as oracle fields of an `Env` record: one `Env` value describes the
  behavior of the outside world during the handling of one request.
* The process-wide mutable state (the `loaded_model` two-level dict and the
  filesystem paths touched by `os.path.exists` / `shutil.rmtree`) is threaded
  explicitly through an `EstState` record.  Python dicts are embedded as
  association lists with Python dict assignment semantics (replace in place,
  append new keys at the end).
* Every filesystem operation the estimator source itself performs is recorded
  in an explicit trace of `FsOp` values, so that claims of the form "no
  filesystem access happens" are statable.  Disk writes performed internally
  by the collaborators are outside the embedded source and are not traced.
* The uncaught-exception behavior of the source (a Python KeyError escaping
  `handle_request`) is made explicit in the `HandleOutcome` type.
-/

/-! ## Association lists with Python dict semantics -/

def alLookup {α : Type} (m : List (String × α)) (k : String) : Option α :=
  match m with
  | [] => none
  | (k1, v) :: rest => if k1 == k then some v else alLookup rest k

def alInsert {α : Type} (m : List (String × α)) (k : String) (v : α) :
    List (String × α) :=
  match m with
  | [] => [(k, v)]
  | (k1, v1) :: rest =>
      if k1 == k then (k, v) :: rest else (k1, v1) :: alInsert rest k v

/-! ## Python string helpers -/

/-- Bool test that `pat` occurs in `s` as a contiguous run, at the front. -/
def startsWithChars : List Char → List Char → Bool
  | _, [] => true
  | [], _ :: _ => false
  | c :: cs, p :: ps => c == p && startsWithChars cs ps

/-- Bool test for the Python substring operator `pat in s`, over char lists. -/
def hasSubChars : List Char → List Char → Bool
  | [], pat => pat.isEmpty
  | c :: rest, pat => startsWithChars (c :: rest) pat || hasSubChars rest pat

/-- Python substring test `pat in s` for strings. -/
def strContains (s pat : String) : Bool := hasSubChars s.toList pat.toList

/-- The byte values stripped by Python bytes.strip with no argument. -/
def pyWs (c : Char) : Bool :=
  c == ' ' || c == '\t' || c == '\n' || c == '\r' ||
    c == Char.ofNat 11 || c == Char.ofNat 12

/-- Python bytes.strip over a char list: drop whitespace at both ends. -/
def pyStripChars (s : List Char) : List Char :=
  ((s.dropWhile pyWs).reverse.dropWhile pyWs).reverse

/-- The JSON closing-brace character checked by the framing loop. -/
def closingBrace : Char := Char.ofNat 125

/-! ## Data model -/

/-- Per-component predicted power values; the numeric payload is irrelevant
to the properties verified here, only its emptiness is observed. -/
abbrev Powers := List (String × Int)

/-- An in-memory model object as seen by the estimator source: the fields it
reads are `model_name`, `trainer_name`, and whether `estimator` is non-None.
The prediction capability `get_power` is supplied by the `Env` oracle. -/
structure ModelHandle where
  model_name : String
  trainer_name : String
  has_estimator : Bool
deriving DecidableEq

/-- The fields of a decoded power request that `handle_request` reads.
The metric frame itself is consumed only through the prediction oracle. -/
structure PowerRequest where
  trainer_name : Option String
  output_type : String
  energy_source : Option String
deriving DecidableEq

/-- The `loaded_model` global: output type name, then energy source. -/
abbrev Cache := List (String × List (String × ModelHandle))

/-- Mutable state threaded through a call: the model cache and the set of
filesystem paths that exist. -/
structure EstState where
  loaded_model : Cache
  fs : List String
deriving DecidableEq

/-- Filesystem and resolution operations performed by the estimator source,
in program order. -/
inductive FsOp
  | pathExists (p : String)
  | rmtree (p : String)
  | makeRequest
  | getArchived
  | load (source outType : String)
deriving DecidableEq

/-- Oracle describing the collaborators during one request. -/
structure Env where
  is_model_server_enabled : Bool
  is_output_type_supported : String → Bool
  get_download_output_path : String → String → String
  make_request : Option String
  get_achived_model : Option String
  load_downloaded_model : Option ModelHandle
  get_power : ModelHandle → Powers × String
  parse : String → Except String PowerRequest

/-- Outcome of `handle_request`: either the returned response dict, or a
Python KeyError escaping from the cache lookup with the given missing key. -/
inductive HandleOutcome
  | response (powers : Powers) (msg : String)
  | keyError (missingKey : String)
deriving DecidableEq

/-- Outcome of the resolution block (source lines 76 to 99): an early error
return, or fall-through carrying the final `output_path` value. -/
inductive ResolveResult
  | fail (msg : String) (st : EstState) (trace : List FsOp)
  | ok (output_path : String) (st : EstState) (trace : List FsOp)
deriving DecidableEq

def ResolveResult.state : ResolveResult → EstState
  | .fail _ st _ => st
  | .ok _ st _ => st

def ResolveResult.trace : ResolveResult → List FsOp
  | .fail _ _ tr => tr
  | .ok _ _ tr => tr

/-! ## The embedded estimator -/

/-- Source lines 61 to 62: a None source or any source containing the
substring rapl is canonicalized to rapl-sysfs. -/
def normalize_energy_source : Option String → String
  | none => "rapl-sysfs"
  | some s => if strContains s "rapl" then "rapl-sysfs" else s

def innerLookup (c : Cache) (ot src : String) : Option ModelHandle :=
  match alLookup c ot with
  | none => none
  | some inner => alLookup inner src

/-- Nested dict assignment `loaded_model[ot][src] = h` (the outer entry is
always present when the source executes this line). -/
def cacheSet (c : Cache) (ot src : String) (h : ModelHandle) : Cache :=
  match alLookup c ot with
  | some inner => alInsert c ot (alInsert inner src h)
  | none => alInsert c ot [(src, h)]

/-- Source lines 68 to 75: the trainer-mismatch flag.  Note the whole check
is guarded by `is_model_server_enabled`. -/
def mismatch_trainer (env : Env) (cache : Cache) (ot src : String)
    (trainer : Option String) : Bool :=
  if env.is_model_server_enabled then
    match trainer with
    | none => false
    | some t =>
        if t != "" then
          match innerLookup cache ot src with
          | some current => current.trainer_name != t
          | none => false
        else false
  else false

/-- Source lines 64 to 65: lazily create the outer dict entry for the output
type when it is absent. -/
def lazyInit (c : Cache) (ot : String) : Cache :=
  if (alLookup c ot).isNone then
    alInsert c ot ([] : List (String × ModelHandle))
  else c

def fsExists (fs : List String) (p : String) : Bool := fs.contains p

def fsRemove (fs : List String) (p : String) : List String :=
  fs.filter (fun q => q != p)

/-- Source lines 95 to 99: call the loader; install the item only when it is
non-None and its estimator is non-None. -/
def load_phase (env : Env) (ot src output_path : String) (st : EstState)
    (trace : List FsOp) : ResolveResult :=
  let trace1 := trace ++ [FsOp.load src ot]
  match env.load_downloaded_model with
  | some item =>
      if item.has_estimator then
        .ok output_path
          { st with loaded_model := cacheSet st.loaded_model ot src item }
          trace1
      else .ok output_path st trace1
  | none => .ok output_path st trace1

/-- Source lines 78 to 80: when the trainer mismatches and the artifact path
exists, remove the existing artifact. -/
def mismatch_purge (mismatch : Bool) (st : EstState) (output_path : String) :
    EstState × List FsOp :=
  if mismatch then
    if fsExists st.fs output_path then
      ({ st with fs := fsRemove st.fs output_path },
        [FsOp.pathExists output_path, FsOp.rmtree output_path])
    else (st, [FsOp.pathExists output_path])
  else (st, [])

/-- Source lines 77 to 99: the body of the resolution branch.  `data` is the
raw request string, used verbatim in the failure message. -/
def resolve_step (env : Env) (data ot src : String) (mismatch : Bool)
    (st : EstState) : ResolveResult :=
  let output_path := env.get_download_output_path src ot
  let step1 := mismatch_purge mismatch st output_path
  let st1 := step1.1
  let trace2 := step1.2 ++ [FsOp.pathExists output_path]
  if fsExists st1.fs output_path then
    load_phase env ot src output_path st1 trace2
  else
    match env.make_request with
    | some p => load_phase env ot src p st1 (trace2 ++ [FsOp.makeRequest])
    | none =>
        match env.get_achived_model with
        | some p =>
            load_phase env ot src p st1
              (trace2 ++ [FsOp.makeRequest, FsOp.getArchived])
        | none =>
            .fail ("failed to get model from request " ++ data) st1
              (trace2 ++ [FsOp.makeRequest, FsOp.getArchived])

/-- Source lines 101 to 108: the cache lookup that can raise KeyError, the
prediction call, and the eviction of the on-disk artifact when the model
reports a failure message. -/
def predict_step (env : Env) (ot src output_path : String) (st : EstState)
    (trace : List FsOp) : HandleOutcome × EstState × List FsOp :=
  match innerLookup st.loaded_model ot src with
  | none => (.keyError src, st, trace)
  | some model =>
      let pm := env.get_power model
      let powers := pm.1
      let msg := pm.2
      if msg != "" then
        if output_path != "" then
          let trace1 := trace ++ [FsOp.pathExists output_path]
          if fsExists st.fs output_path then
            (.response powers msg, { st with fs := fsRemove st.fs output_path },
              trace1 ++ [FsOp.rmtree output_path])
          else (.response powers msg, st, trace1)
        else (.response powers msg, st, trace)
      else (.response powers msg, st, trace)

/-- Source lines 46 to 108: `handle_request`. -/
def handle_request (env : Env) (data : String) (st : EstState) :
    HandleOutcome × EstState × List FsOp :=
  match env.parse data with
  | .error e => (.response [] ("failed to handle request: " ++ e), st, [])
  | .ok pr =>
      if env.is_output_type_supported pr.output_type then
        let ot := pr.output_type
        let src := normalize_energy_source pr.energy_source
        let cache1 := lazyInit st.loaded_model ot
        let st1 : EstState := { st with loaded_model := cache1 }
        let mismatch := mismatch_trainer env cache1 ot src pr.trainer_name
        if (innerLookup cache1 ot src).isNone || mismatch then
          match resolve_step env data ot src mismatch st1 with
          | .fail msg st2 trace => (.response [] msg, st2, trace)
          | .ok output_path st2 trace =>
              predict_step env ot src output_path st2 trace
        else predict_step env ot src "" st1 []
      else
        (.response []
          ("output type " ++ pr.output_type ++ " is not supported"), st, [])

/-- Iterated request handling: the state after n identical requests. -/
def handle_iter (env : Env) (data : String) : Nat → EstState → EstState
  | 0, st => st
  | n + 1, st => handle_iter env data n (handle_request env data st).2.1

/-! ## The embedded connection loop -/

/-- Result of the read loop of `EstimatorServer.accepted` on a given
sequence of chunks delivered by recv: the accumulated request data when the
loop breaks (after which exactly one response is written back), a crash when
a Python IndexError escapes, or blocking on recv when the chunks run out. -/
inductive AcceptedResult
  | response (data : List Char)
  | crash
  | blocked
deriving DecidableEq

/-- Source lines 131 to 141: the framing loop.  Each chunk is stripped and
appended; the guard `shunk is None` is never true in Python since recv
returns a bytes value (empty at end of stream) and strip returns bytes, so
the next test indexes the last byte of the stripped chunk, which raises
IndexError when the stripped chunk is empty. -/
def accepted_loop : List (List Char) → List Char → AcceptedResult
  | [], _ => .blocked
  | c :: rest, data =>
      let s := pyStripChars c
      let data1 := data ++ s
      match s.getLast? with
      | none => .crash
      | some last =>
          if last == closingBrace then .response data1
          else accepted_loop rest data1

/-! ## Concrete instances used in witnesses and counterexamples -/

/-- A healthy cached model produced by trainer A. -/
def handleA : ModelHandle :=
  { model_name := "modelA", trainer_name := "A", has_estimator := true }

/-- A loadable model produced by trainer B. -/
def itemB : ModelHandle :=
  { model_name := "modelB", trainer_name := "B", has_estimator := true }

/-- Baseline collaborator oracle: model server enabled, two supported output
types, a deterministic locator, failing resolvers, failing loader, a model
that predicts successfully, and a failing JSON decoder. -/
def envBase : Env :=
  { is_model_server_enabled := true
    is_output_type_supported := fun s => s == "AbsPower" || s == "DynPower"
    get_download_output_path := fun src ot => "/download/" ++ ot ++ "/" ++ src
    make_request := none
    get_achived_model := none
    load_downloaded_model := none
    get_power := fun _ => ([("platform", 5)], "")
    parse := fun _ => Except.error "bad json" }

/-- A decoded request with no trainer for AbsPower over a rapl source. -/
def reqAbs : PowerRequest :=
  { trainer_name := none, output_type := "AbsPower",
    energy_source := some "rapl" }

/-- A decoded request naming trainer B for AbsPower over a rapl source. -/
def reqAbsB : PowerRequest :=
  { trainer_name := some "B", output_type := "AbsPower",
    energy_source := some "rapl" }

/-- C1 oracle: artifact present locally but the loader yields None. -/
def envLoadFail : Env :=
  { envBase with parse := fun _ => Except.ok reqAbs }

/-- C1 state: empty cache, artifact file already downloaded. -/
def stEmptyWithArtifact : EstState :=
  { loaded_model := [], fs := ["/download/AbsPower/rapl-sysfs"] }

/-- C2 counterexample oracle: cached model whose prediction fails. -/
def envPredictFail : Env :=
  { envBase with
    parse := fun _ => Except.ok reqAbs
    get_power := fun _ => ([], "predict error") }

/-- State with a cached healthy model for (AbsPower, rapl-sysfs) and the
matching artifact file on disk. -/
def stCachedWithArtifact : EstState :=
  { loaded_model := [("AbsPower", [("rapl-sysfs", handleA)])],
    fs := ["/download/AbsPower/rapl-sysfs"] }

/-- C3 and C5 counterexample oracle: the model server integration is
disabled while a conflicting trainer is requested and resolution would
succeed. -/
def envDisabled : Env :=
  { envBase with
    is_model_server_enabled := false
    parse := fun _ => Except.ok reqAbsB
    make_request := some "/remote/AbsPower"
    load_downloaded_model := some itemB }

/-- C4 oracle: both resolvers fail for a parsed request. -/
def envResolversFail : Env :=
  { envBase with parse := fun _ => Except.ok reqAbs }

/-- A loadable model produced by trainer C. -/
def itemC : ModelHandle :=
  { model_name := "modelC", trainer_name := "C", has_estimator := true }

/-- C5 counterexample oracle, second scenario: enabled server, trainer B
requested, remote resolution succeeds but the loader returns a trainer C
model, which the code installs without checking its trainer. -/
def envWrongTrainer : Env :=
  { envBase with
    parse := fun _ => Except.ok reqAbsB
    make_request := some "/remote/AbsPower"
    load_downloaded_model := some itemC }

/-- C5 witness oracle: enabled server, conflicting trainer B requested,
remote resolution and loading succeed with a trainer B model. -/
def envSwapTrainer : Env :=
  { envBase with
    parse := fun _ => Except.ok reqAbsB
    make_request := some "/remote/AbsPower"
    load_downloaded_model := some itemB }

/-- C2 witness oracle: cache miss, artifact already downloaded, loading
succeeds, prediction fails. -/
def envResolvedPredictFail : Env :=
  { envBase with
    parse := fun _ => Except.ok reqAbs
    load_downloaded_model := some itemB
    get_power := fun _ => ([], "predict error") }

/-- C6 witness oracle: plain cache-hit request. -/
def envHit : Env :=
  { envBase with parse := fun _ => Except.ok reqAbs }

/-- C9 witness oracle: trainer B requested against cached trainer A, remote
resolution succeeds but the loader fails. -/
def envReloadFail : Env :=
  { envBase with
    parse := fun _ => Except.ok reqAbsB
    make_request := some "/remote/AbsPower" }

/-- A request with an unsupported output type. -/
def reqUnknown : PowerRequest :=
  { trainer_name := none, output_type := "Unknown",
    energy_source := some "rapl" }

/-- C7 witness oracle: decodes to an unsupported output type. -/
def envUnsupported : Env :=
  { envBase with parse := fun _ => Except.ok reqUnknown }

/-! ## Helper lemmas -/

theorem str_append_ne_empty_left (s t : String) (h : s ≠ "") : s ++ t ≠ "" := by
  cases s with
  | mk ds =>
    cases t with
    | mk dt =>
      intro hc
      apply h
      have hd : ds ++ dt = ([] : List Char) := congrArg String.data hc
      rcases List.append_eq_nil.mp hd with ⟨h1, _⟩
      simpa using congrArg String.mk h1

theorem alLookup_alInsert_self {α : Type} (m : List (String × α)) (k : String)
    (v : α) : alLookup (alInsert m k v) k = some v := by
  induction m with
  | nil => simp [alInsert, alLookup]
  | cons hd tl ih =>
      obtain ⟨k1, v1⟩ := hd
      by_cases hk : k1 = k
      · simp [alInsert, alLookup, hk]
      · simp [alInsert, alLookup, hk, ih]

theorem alLookup_alInsert_ne {α : Type} (m : List (String × α)) (k k1 : String)
    (v : α) (h : k ≠ k1) : alLookup (alInsert m k v) k1 = alLookup m k1 := by
  induction m with
  | nil => simp [alInsert, alLookup, h]
  | cons hd tl ih =>
      obtain ⟨k2, v2⟩ := hd
      by_cases hk : k2 = k
      · simp [alInsert, alLookup, hk, h]
      · simp [alInsert, alLookup, hk, ih]

theorem innerLookup_insert_empty (c : Cache) (ot : String)
    (h : alLookup c ot = none) (ot1 src1 : String) :
    innerLookup (alInsert c ot []) ot1 src1 = innerLookup c ot1 src1 := by
  by_cases hot : ot = ot1
  · subst hot
    simp [innerLookup, alLookup_alInsert_self, h, alLookup]
  · simp [innerLookup, alLookup_alInsert_ne c ot ot1 _ hot]

theorem innerLookup_lazyInit (c : Cache) (ot ot1 src1 : String) :
    innerLookup (lazyInit c ot) ot1 src1 = innerLookup c ot1 src1 := by
  unfold lazyInit
  cases h : alLookup c ot with
  | none => simp [innerLookup_insert_empty c ot h]
  | some inner => simp

theorem lazyInit_of_present (c : Cache) (ot : String)
    (h : (alLookup c ot).isNone = false) : lazyInit c ot = c := by
  simp [lazyInit, h]

theorem alLookup_lazyInit_self (c : Cache) (ot : String) :
    (alLookup (lazyInit c ot) ot).isNone = false := by
  unfold lazyInit
  cases h : alLookup c ot with
  | none => simp [alLookup_alInsert_self]
  | some inner => simp [h]

theorem outer_present_of_inner (c : Cache) (ot src : String) (h : ModelHandle)
    (hi : innerLookup c ot src = some h) : (alLookup c ot).isNone = false := by
  unfold innerLookup at hi
  cases ho : alLookup c ot with
  | none => rw [ho] at hi; exact absurd hi (by simp)
  | some inner => simp

theorem innerLookup_cacheSet_self (c : Cache) (ot src : String)
    (h : ModelHandle) : innerLookup (cacheSet c ot src h) ot src = some h := by
  unfold cacheSet
  cases ho : alLookup c ot with
  | none =>
      simp [innerLookup, alLookup_alInsert_self, alLookup]
  | some inner =>
      simp [innerLookup, alLookup_alInsert_self]

theorem fsExists_fsRemove_self (fs : List String) (p : String) :
    fsExists (fsRemove fs p) p = false := by
  simp [fsExists, fsRemove]

theorem mismatch_trainer_of_inner_none (env : Env) (cache : Cache)
    (ot src : String) (trainer : Option String)
    (h : innerLookup cache ot src = none) :
    mismatch_trainer env cache ot src trainer = false := by
  unfold mismatch_trainer
  cases env.is_model_server_enabled with
  | false => rfl
  | true =>
      cases trainer with
      | none => rfl
      | some t =>
          by_cases ht : t = ""
          · simp [ht]
          · simp [ht, h]

theorem predict_step_spec (env : Env) (ot src op : String) (st : EstState)
    (tr : List FsOp) (item : ModelHandle)
    (h : innerLookup st.loaded_model ot src = some item) :
    (predict_step env ot src op st tr).1 =
        HandleOutcome.response (env.get_power item).1 (env.get_power item).2 ∧
    (predict_step env ot src op st tr).2.1.loaded_model = st.loaded_model ∧
    ∃ tl, (predict_step env ot src op st tr).2.2 = tr ++ tl := by
  unfold predict_step
  rw [h]
  by_cases hm : ((env.get_power item).2 != "") = true
  · by_cases hop : (op != "") = true
    · by_cases hfs : fsExists st.fs op = true
      · simp [hm, hop, hfs]
      · simp [hm, hop, hfs]
    · simp [hm, hop]
  · simp [hm]

theorem mismatch_purge_cache (m : Bool) (st : EstState) (p : String) :
    (mismatch_purge m st p).1.loaded_model = st.loaded_model := by
  unfold mismatch_purge
  split
  · split <;> rfl
  · rfl

theorem load_phase_state_of_load_fail (env : Env) (ot src op : String)
    (st : EstState) (tr : List FsOp)
    (hload : ∀ it, env.load_downloaded_model = some it →
      it.has_estimator = false) :
    (load_phase env ot src op st tr).state = st := by
  unfold load_phase
  cases hl : env.load_downloaded_model with
  | none => rfl
  | some it => simp [ResolveResult.state, hload it hl]

theorem resolve_step_cache_of_load_fail (env : Env) (data ot src : String)
    (mismatch : Bool) (st : EstState)
    (hload : ∀ it, env.load_downloaded_model = some it →
      it.has_estimator = false) :
    (resolve_step env data ot src mismatch st).state.loaded_model
      = st.loaded_model := by
  unfold resolve_step
  simp only []
  split
  · rw [load_phase_state_of_load_fail env ot src _ _ _ hload]
    exact mismatch_purge_cache mismatch st _
  · cases hmr : env.make_request with
    | some p =>
        rw [load_phase_state_of_load_fail env ot src _ _ _ hload]
        exact mismatch_purge_cache mismatch st _
    | none =>
        cases hga : env.get_achived_model with
        | some p =>
            rw [load_phase_state_of_load_fail env ot src _ _ _ hload]
            exact mismatch_purge_cache mismatch st _
        | none => exact mismatch_purge_cache mismatch st _

/-- One full run of a request whose resolution fails at both resolvers: the
response carries the descriptive error, the filesystem is untouched, and the
cache changes only by the lazy outer initialization. -/
theorem handle_fail_of_resolvers_none (env : Env) (data : String)
    (st : EstState) (pr : PowerRequest)
    (hparse : env.parse data = Except.ok pr)
    (hsup : env.is_output_type_supported pr.output_type = true)
    (hinner : innerLookup st.loaded_model pr.output_type
        (normalize_energy_source pr.energy_source) = none)
    (hfs : fsExists st.fs (env.get_download_output_path
        (normalize_energy_source pr.energy_source) pr.output_type) = false)
    (hmr : env.make_request = none)
    (hga : env.get_achived_model = none) :
    handle_request env data st =
      (HandleOutcome.response []
          ("failed to get model from request " ++ data),
        { loaded_model := lazyInit st.loaded_model pr.output_type,
          fs := st.fs },
        [FsOp.pathExists (env.get_download_output_path
            (normalize_energy_source pr.energy_source) pr.output_type),
          FsOp.makeRequest, FsOp.getArchived]) := by
  have hinner1 : innerLookup (lazyInit st.loaded_model pr.output_type)
      pr.output_type (normalize_energy_source pr.energy_source) = none := by
    rw [innerLookup_lazyInit]; exact hinner
  have hmm := mismatch_trainer_of_inner_none env
    (lazyInit st.loaded_model pr.output_type) pr.output_type
    (normalize_energy_source pr.energy_source) pr.trainer_name hinner1
  unfold handle_request
  rw [hparse]
  simp only [hsup, if_true]
  simp only [hinner1, hmm, Option.isNone_none, Bool.true_or, if_true]
  unfold resolve_step mismatch_purge
  simp only [if_neg, Bool.false_eq_true, not_false_iff, reduceIte, hfs, hmr,
    hga]
  rfl

theorem mismatch_trainer_of_no_trainer (env : Env) (c : Cache)
    (ot src : String) : mismatch_trainer env c ot src none = false := by
  unfold mismatch_trainer
  cases env.is_model_server_enabled <;> rfl

theorem mismatch_trainer_eq_true (env : Env) (c : Cache) (ot src t : String)
    (cur : ModelHandle)
    (hen : env.is_model_server_enabled = true)
    (ht : (t != "") = true)
    (hcur : innerLookup c ot src = some cur)
    (hct : (cur.trainer_name != t) = true) :
    mismatch_trainer env c ot src (some t) = true := by
  unfold mismatch_trainer
  simp [hen, ht, hcur, hct]

/-- One full run of a request served from the in-memory cache with no
trainer mismatch: the cached handle predicts, the state is returned
untouched, and no filesystem operation is performed. -/
theorem handle_cache_hit_run (env : Env) (data : String) (st : EstState)
    (pr : PowerRequest) (hdl : ModelHandle)
    (hparse : env.parse data = Except.ok pr)
    (hsup : env.is_output_type_supported pr.output_type = true)
    (hinner : innerLookup st.loaded_model pr.output_type
        (normalize_energy_source pr.energy_source) = some hdl)
    (hmm : mismatch_trainer env st.loaded_model pr.output_type
        (normalize_energy_source pr.energy_source) pr.trainer_name = false) :
    handle_request env data st =
      (HandleOutcome.response (env.get_power hdl).1 (env.get_power hdl).2,
        st, []) := by
  have houter := outer_present_of_inner _ _ _ _ hinner
  have hlz := lazyInit_of_present st.loaded_model pr.output_type houter
  unfold handle_request
  rw [hparse]
  simp only [hsup, if_true, hlz, hinner, hmm]
  simp only [Option.isNone_some, Bool.or_false, Bool.false_eq_true, if_false]
  unfold predict_step
  rw [show ({ st with loaded_model := st.loaded_model } : EstState) = st from
    rfl]
  rw [hinner]
  simp

theorem load_phase_trace (env : Env) (ot src op : String) (st : EstState)
    (tr : List FsOp) :
    (load_phase env ot src op st tr).trace = tr ++ [FsOp.load src ot] := by
  unfold load_phase
  cases env.load_downloaded_model with
  | none => rfl
  | some it =>
      by_cases h : it.has_estimator = true
      · simp [h, ResolveResult.trace]
      · simp [h, ResolveResult.trace]

theorem predict_step_trace (env : Env) (ot src op : String) (st : EstState)
    (tr : List FsOp) :
    ∃ tl, (predict_step env ot src op st tr).2.2 = tr ++ tl := by
  unfold predict_step
  cases innerLookup st.loaded_model ot src with
  | none => exact ⟨[], by simp⟩
  | some model =>
      by_cases hm : ((env.get_power model).2 != "") = true
      · by_cases hop : (op != "") = true
        · by_cases hfs : fsExists st.fs op = true
          · simp [hm, hop, hfs]
          · simp [hm, hop, hfs]
        · simp [hm, hop]
      · simp [hm]

/-- With a trainer mismatch and the artifact present on disk, the
resolution block always opens with the existence check and the removal of
the artifact, followed by the re-check of the path; whatever the resolvers
and the loader then do only appends to the trace. -/
theorem resolve_step_trace_purge (env : Env) (data ot src : String)
    (st : EstState) (p : String)
    (hpath : env.get_download_output_path src ot = p)
    (hfs : fsExists st.fs p = true) :
    ∃ tl, (resolve_step env data ot src true st).trace
      = [FsOp.pathExists p, FsOp.rmtree p, FsOp.pathExists p] ++ tl := by
  unfold resolve_step mismatch_purge
  rw [hpath]
  simp only [if_true, hfs]
  simp only [fsExists_fsRemove_self, Bool.false_eq_true, reduceIte]
  cases env.make_request with
  | some q =>
      rw [load_phase_trace]
      exact ⟨[FsOp.makeRequest, FsOp.load src ot], by simp⟩
  | none =>
      cases env.get_achived_model with
      | some q =>
          rw [load_phase_trace]
          exact ⟨[FsOp.makeRequest, FsOp.getArchived, FsOp.load src ot],
            by simp⟩
      | none =>
          exact ⟨[FsOp.makeRequest, FsOp.getArchived],
            by simp [ResolveResult.trace]⟩

/-! ## Claims -/

/-- Claim C1: the claim states that handle_request never lets an exception
escape and answers every failure with empty powers and a non-empty msg.
The code violates this: when the loader fails to yield a usable handle and
no prior cache entry exists for the key pair, the final cache lookup raises
a KeyError that escapes handle_request.  This theorem evaluates the embedded
code at such an input: supported output type, empty cache, artifact file
present on disk, loader returning None. -/
theorem C1_keyerror_on_failed_load :
    (handle_request envLoadFail "req1" stEmptyWithArtifact).1 =
      HandleOutcome.keyError "rapl-sysfs" := by
  decide

/-- Counterexample to claim C2 as stated: a request served from the
in-memory cache whose prediction reports a non-empty failure message does
NOT get its on-disk artifact deleted, because output_path is the empty
string on the cache-hit path.  Here the artifact exists, prediction fails,
yet the state is unchanged and no filesystem operation happens. -/
theorem C2_counterexample :
    innerLookup stCachedWithArtifact.loaded_model "AbsPower" "rapl-sysfs"
        = some handleA ∧
    (handle_request envPredictFail "req2" stCachedWithArtifact).1 =
      HandleOutcome.response [] "predict error" ∧
    (handle_request envPredictFail "req2" stCachedWithArtifact).2.1
        = stCachedWithArtifact ∧
    (handle_request envPredictFail "req2" stCachedWithArtifact).2.2
        = ([] : List FsOp) := by
  decide

/-- Claim C2 as amended: for every request that enters the resolution path
(cache miss or trainer mismatch, any resolver outcome) and whose resolved
model reports a non-empty prediction-failure message, handle_request
deletes the on-disk artifact at the output path that resolution computed
whenever that path is non-empty and exists (the guard of source line 105),
leaves the in-memory cache entry for the key pair in place, and returns the
failure message; and because the entry persists, a second identical request
that does not itself trigger a trainer mismatch is served from the
in-memory cache with no operation at all rather than re-entering
resolution. -/
theorem C2_eviction_after_resolution (env : Env) (data : String)
    (st : EstState) (pr : PowerRequest) (item : ModelHandle) (mm : Bool)
    (op : String) (st2 : EstState) (tr : List FsOp) (pw : Powers)
    (m : String)
    (hparse : env.parse data = Except.ok pr)
    (hsup : env.is_output_type_supported pr.output_type = true)
    (hmmv : mismatch_trainer env (lazyInit st.loaded_model pr.output_type)
        pr.output_type (normalize_energy_source pr.energy_source)
        pr.trainer_name = mm)
    (hresolution : ((innerLookup (lazyInit st.loaded_model pr.output_type)
        pr.output_type
        (normalize_energy_source pr.energy_source)).isNone || mm) = true)
    (hres : resolve_step env data pr.output_type
        (normalize_energy_source pr.energy_source) mm
        { st with loaded_model := lazyInit st.loaded_model pr.output_type }
        = ResolveResult.ok op st2 tr)
    (hitem : innerLookup st2.loaded_model pr.output_type
        (normalize_energy_source pr.energy_source) = some item)
    (hgp : env.get_power item = (pw, m))
    (hm : (m != "") = true)
    (hop : (op != "") = true)
    (hofs : fsExists st2.fs op = true) :
    handle_request env data st =
      (HandleOutcome.response pw m,
        EstState.mk st2.loaded_model (fsRemove st2.fs op),
        tr ++ [FsOp.pathExists op, FsOp.rmtree op]) ∧
    innerLookup st2.loaded_model pr.output_type
        (normalize_energy_source pr.energy_source) = some item ∧
    fsExists (fsRemove st2.fs op) op = false ∧
    (mismatch_trainer env st2.loaded_model pr.output_type
        (normalize_energy_source pr.energy_source) pr.trainer_name
        = false →
      handle_request env data
          (EstState.mk st2.loaded_model (fsRemove st2.fs op)) =
        (HandleOutcome.response pw m,
          EstState.mk st2.loaded_model (fsRemove st2.fs op), [])) := by
  refine ⟨?_, hitem, fsExists_fsRemove_self st2.fs op, ?_⟩
  · unfold handle_request
    rw [hparse]
    simp only [hsup, if_true, hmmv, hresolution, if_true]
    rw [hres]
    simp only []
    unfold predict_step
    rw [hitem]
    simp only [hgp]
    simp only [hm, hop, if_true, hofs, reduceIte]
    simp [List.append_assoc]
  · intro hmm2
    have hrun := handle_cache_hit_run env data
      (EstState.mk st2.loaded_model (fsRemove st2.fs op)) pr item hparse
      hsup hitem hmm2
    rw [hgp] at hrun
    exact hrun

/-- Witness for the amended claim C2 at a concrete input: a cache-miss
resolution from the already-downloaded artifact, followed by a failing
prediction that evicts the artifact, and a second request served from the
cache. -/
theorem C2_witness :
    handle_request envResolvedPredictFail "req2w" stEmptyWithArtifact =
      (HandleOutcome.response [] "predict error",
        EstState.mk [("AbsPower", [("rapl-sysfs", itemB)])]
          (fsRemove ["/download/AbsPower/rapl-sysfs"]
            "/download/AbsPower/rapl-sysfs"),
        [FsOp.pathExists "/download/AbsPower/rapl-sysfs",
          FsOp.load "rapl-sysfs" "AbsPower"] ++
          [FsOp.pathExists "/download/AbsPower/rapl-sysfs",
            FsOp.rmtree "/download/AbsPower/rapl-sysfs"]) ∧
    innerLookup [("AbsPower", [("rapl-sysfs", itemB)])] reqAbs.output_type
        (normalize_energy_source reqAbs.energy_source) = some itemB ∧
    fsExists (fsRemove ["/download/AbsPower/rapl-sysfs"]
        "/download/AbsPower/rapl-sysfs") "/download/AbsPower/rapl-sysfs"
      = false ∧
    handle_request envResolvedPredictFail "req2w"
        (EstState.mk [("AbsPower", [("rapl-sysfs", itemB)])]
          (fsRemove ["/download/AbsPower/rapl-sysfs"]
            "/download/AbsPower/rapl-sysfs")) =
      (HandleOutcome.response [] "predict error",
        EstState.mk [("AbsPower", [("rapl-sysfs", itemB)])]
          (fsRemove ["/download/AbsPower/rapl-sysfs"]
            "/download/AbsPower/rapl-sysfs"), []) :=
  let h := C2_eviction_after_resolution envResolvedPredictFail "req2w"
    stEmptyWithArtifact reqAbs itemB false "/download/AbsPower/rapl-sysfs"
    (EstState.mk [("AbsPower", [("rapl-sysfs", itemB)])]
      ["/download/AbsPower/rapl-sysfs"])
    [FsOp.pathExists "/download/AbsPower/rapl-sysfs",
      FsOp.load "rapl-sysfs" "AbsPower"] [] "predict error"
    rfl (by decide) (by decide) (by decide) (by decide) (by decide) rfl
    (by decide) (by decide) (by decide)
  ⟨h.1, h.2.1, h.2.2.1, h.2.2.2 (by decide)⟩

/-- Counterexample to claim C3 as stated: with the model-server integration
disabled, the mismatch flag is false even though the request names non-empty
trainer B, an entry exists for the key pair, and its trainer A differs. -/
theorem C3_counterexample :
    innerLookup stCachedWithArtifact.loaded_model "AbsPower" "rapl-sysfs"
        = some handleA ∧
    handleA.trainer_name ≠ "B" ∧
    envDisabled.is_model_server_enabled = false ∧
    mismatch_trainer envDisabled stCachedWithArtifact.loaded_model
        "AbsPower" "rapl-sysfs" (some "B") = false := by
  decide

/-- Claim C3 as amended: the trainer-mismatch flag is true precisely when
the model-server integration is enabled AND the request names a non-empty
trainer AND a cache entry exists for the key pair AND the existing handle
carries a different trainer identifier. -/
theorem C3_mismatch_characterization (env : Env) (cache : Cache)
    (ot src : String) (trainer : Option String) :
    mismatch_trainer env cache ot src trainer = true ↔
      env.is_model_server_enabled = true ∧
      ∃ t, trainer = some t ∧ t ≠ "" ∧
        ∃ cur, innerLookup cache ot src = some cur ∧
          cur.trainer_name ≠ t := by
  unfold mismatch_trainer
  cases henv : env.is_model_server_enabled with
  | false => simp
  | true =>
      cases trainer with
      | none => simp
      | some t =>
          by_cases ht : t = ""
          · simp [ht]
          · cases hc : innerLookup cache ot src with
            | none => simp [ht, hc, bne_iff_ne]
            | some cur => simp [ht, hc, bne_iff_ne]

/-- Counterexample to claim C4 as stated: with an empty cache and both
resolvers failing, the failed request still creates a top-level entry
mapping the output type to an empty inner dict, so the two-level mapping is
mutated. -/
theorem C4_counterexample :
    (handle_request envResolversFail "req4"
        (EstState.mk [] [])).2.1.loaded_model = [("AbsPower", [])] ∧
    (handle_request envResolversFail "req4" (EstState.mk [] [])).1 =
      HandleOutcome.response []
        ("failed to get model from request " ++ "req4") := by
  decide

/-- Claim C4 as amended: when both resolvers fail, the same request yields
the same error message both times, the filesystem is untouched, no
key-pair-to-handle entry is created or changed at any key, and the only
mutation is the lazy creation of an empty inner mapping for the output type
at the outer level; the state after the first attempt is a fixed point of
the second. -/
theorem C4_failure_idempotent (env : Env) (data : String) (st : EstState)
    (pr : PowerRequest)
    (hparse : env.parse data = Except.ok pr)
    (hsup : env.is_output_type_supported pr.output_type = true)
    (hinner : innerLookup st.loaded_model pr.output_type
        (normalize_energy_source pr.energy_source) = none)
    (hfs : fsExists st.fs (env.get_download_output_path
        (normalize_energy_source pr.energy_source) pr.output_type) = false)
    (hmr : env.make_request = none)
    (hga : env.get_achived_model = none) :
    (∀ ot1 src1, innerLookup (lazyInit st.loaded_model pr.output_type)
        ot1 src1 = innerLookup st.loaded_model ot1 src1) ∧
    handle_request env data st =
      (HandleOutcome.response []
          ("failed to get model from request " ++ data),
        EstState.mk (lazyInit st.loaded_model pr.output_type) st.fs,
        [FsOp.pathExists (env.get_download_output_path
            (normalize_energy_source pr.energy_source) pr.output_type),
          FsOp.makeRequest, FsOp.getArchived]) ∧
    handle_request env data
        (EstState.mk (lazyInit st.loaded_model pr.output_type) st.fs) =
      (HandleOutcome.response []
          ("failed to get model from request " ++ data),
        EstState.mk (lazyInit st.loaded_model pr.output_type) st.fs,
        [FsOp.pathExists (env.get_download_output_path
            (normalize_energy_source pr.energy_source) pr.output_type),
          FsOp.makeRequest, FsOp.getArchived]) := by
  have hfix : lazyInit (lazyInit st.loaded_model pr.output_type)
      pr.output_type = lazyInit st.loaded_model pr.output_type :=
    lazyInit_of_present _ _ (alLookup_lazyInit_self _ _)
  refine ⟨fun ot1 src1 => innerLookup_lazyInit _ _ _ _, ?_, ?_⟩
  · exact handle_fail_of_resolvers_none env data st pr hparse hsup hinner
      hfs hmr hga
  · have h2 := handle_fail_of_resolvers_none env data
      (EstState.mk (lazyInit st.loaded_model pr.output_type) st.fs) pr
      hparse hsup (by rw [innerLookup_lazyInit]; exact hinner) hfs hmr hga
    rw [hfix] at h2
    exact h2

/-- Witness for the amended claim C4 at a concrete input. -/
theorem C4_witness :
    (∀ ot1 src1, innerLookup (lazyInit (EstState.mk ([] : Cache)
        ([] : List String)).loaded_model reqAbs.output_type) ot1 src1 =
      innerLookup (EstState.mk ([] : Cache) ([] : List String)).loaded_model
        ot1 src1) ∧
    handle_request envResolversFail "req4w" (EstState.mk [] []) =
      (HandleOutcome.response []
          ("failed to get model from request " ++ "req4w"),
        EstState.mk (lazyInit ([] : Cache) reqAbs.output_type) [],
        [FsOp.pathExists (envResolversFail.get_download_output_path
            (normalize_energy_source reqAbs.energy_source)
            reqAbs.output_type),
          FsOp.makeRequest, FsOp.getArchived]) ∧
    handle_request envResolversFail "req4w"
        (EstState.mk (lazyInit ([] : Cache) reqAbs.output_type) []) =
      (HandleOutcome.response []
          ("failed to get model from request " ++ "req4w"),
        EstState.mk (lazyInit ([] : Cache) reqAbs.output_type) [],
        [FsOp.pathExists (envResolversFail.get_download_output_path
            (normalize_energy_source reqAbs.energy_source)
            reqAbs.output_type),
          FsOp.makeRequest, FsOp.getArchived]) :=
  C4_failure_idempotent envResolversFail "req4w" (EstState.mk [] []) reqAbs
    rfl (by decide) (by decide) (by decide) rfl rfl

/-- Counterexample to claim C5 as stated, in two scenarios.  First: the
request names trainer B, the cached handle has trainer A, and the artifact
exists on disk, yet nothing is deleted and the old handle stays installed,
because the mismatch check only runs when the model-server integration is
enabled and here it is disabled.  Second: with the integration enabled, the
same mismatch request resolves remotely but the loader returns a trainer C
model, and the code installs it without checking its trainer, so the newly
installed trainer does not equal the requested trainer B. -/
theorem C5_counterexample :
    reqAbsB.trainer_name = some "B" ∧
    innerLookup stCachedWithArtifact.loaded_model "AbsPower" "rapl-sysfs"
        = some handleA ∧
    handleA.trainer_name ≠ "B" ∧
    fsExists stCachedWithArtifact.fs "/download/AbsPower/rapl-sysfs"
        = true ∧
    (handle_request envDisabled "req5" stCachedWithArtifact).2.1
        = stCachedWithArtifact ∧
    (handle_request envDisabled "req5" stCachedWithArtifact).2.2
        = ([] : List FsOp) ∧
    envWrongTrainer.is_model_server_enabled = true ∧
    innerLookup (handle_request envWrongTrainer "req5b"
        stCachedWithArtifact).2.1.loaded_model "AbsPower" "rapl-sysfs"
      = some itemC ∧
    itemC.trainer_name ≠ "B" := by
  decide

/-- Claim C5 as amended: when the model-server integration is enabled and
the request names a non-empty trainer that differs from the trainer of the
cached handle for its key pair, any pre-existing artifact at the
locator-computed path is deleted before resolution is attempted — for every
resolver and loader outcome, the operation trace opens with the existence
check and the removal of that artifact; and whenever the loader yields a
usable handle and either the remote resolver or the archive resolver
supplies a path, the handle installed for the key pair is exactly the
handle the loader returned (the code performs no check that its trainer
equals the requested name). -/
theorem C5_swap_when_enabled (env : Env) (data : String) (st : EstState)
    (pr : PowerRequest) (cur : ModelHandle) (t p : String)
    (hen : env.is_model_server_enabled = true)
    (hparse : env.parse data = Except.ok pr)
    (htrq : pr.trainer_name = some t)
    (ht : (t != "") = true)
    (hsup : env.is_output_type_supported pr.output_type = true)
    (hcur : innerLookup st.loaded_model pr.output_type
        (normalize_energy_source pr.energy_source) = some cur)
    (hct : (cur.trainer_name != t) = true)
    (hpath : env.get_download_output_path
        (normalize_energy_source pr.energy_source) pr.output_type = p)
    (hfs : fsExists st.fs p = true) :
    (handle_request env data st).2.2.take 2
        = [FsOp.pathExists p, FsOp.rmtree p] ∧
    (∀ item q, env.load_downloaded_model = some item →
      item.has_estimator = true →
      (env.make_request = some q ∨
        (env.make_request = none ∧ env.get_achived_model = some q)) →
      innerLookup (handle_request env data st).2.1.loaded_model
          pr.output_type (normalize_energy_source pr.energy_source)
        = some item) := by
  have houter := outer_present_of_inner _ _ _ _ hcur
  have hlz := lazyInit_of_present st.loaded_model pr.output_type houter
  have hmmt : mismatch_trainer env st.loaded_model pr.output_type
      (normalize_energy_source pr.energy_source) pr.trainer_name = true := by
    rw [htrq]
    exact mismatch_trainer_eq_true env st.loaded_model pr.output_type
      (normalize_energy_source pr.energy_source) t cur hen ht hcur hct
  have hh : handle_request env data st =
      (match resolve_step env data pr.output_type
          (normalize_energy_source pr.energy_source) true st with
        | ResolveResult.fail msg st2 trace =>
            (HandleOutcome.response [] msg, st2, trace)
        | ResolveResult.ok op2 st2 trace =>
            predict_step env pr.output_type
              (normalize_energy_source pr.energy_source) op2 st2 trace) := by
    unfold handle_request
    rw [hparse]
    simp only [hsup, if_true, hlz, hcur, hmmt]
    simp only [Bool.or_true, if_true]
  obtain ⟨tl, htl⟩ := resolve_step_trace_purge env data pr.output_type
    (normalize_energy_source pr.energy_source) st p hpath hfs
  constructor
  · rw [hh]
    cases hr : resolve_step env data pr.output_type
        (normalize_energy_source pr.energy_source) true st with
    | fail msg st2 tr2 =>
        rw [hr] at htl
        simp only [ResolveResult.trace] at htl
        simp [htl]
    | ok op2 st2 tr2 =>
        rw [hr] at htl
        simp only [ResolveResult.trace] at htl
        obtain ⟨tl2, htl2⟩ := predict_step_trace env pr.output_type
          (normalize_energy_source pr.energy_source) op2 st2 tr2
        simp only []
        rw [htl2, htl]
        simp
  · intro item q hload hest hdisj
    have hr : ∃ tr2, resolve_step env data pr.output_type
        (normalize_energy_source pr.energy_source) true st
        = ResolveResult.ok q
          (EstState.mk (cacheSet st.loaded_model pr.output_type
              (normalize_energy_source pr.energy_source) item)
            (fsRemove st.fs p)) tr2 := by
      rcases hdisj with hmr | ⟨hmr, hga⟩
      · refine ⟨[FsOp.pathExists p, FsOp.rmtree p, FsOp.pathExists p,
          FsOp.makeRequest,
          FsOp.load (normalize_energy_source pr.energy_source)
            pr.output_type], ?_⟩
        unfold resolve_step mismatch_purge
        rw [hpath]
        simp only [if_true, hfs]
        simp only [fsExists_fsRemove_self, Bool.false_eq_true, reduceIte]
        rw [hmr]
        unfold load_phase
        rw [hload]
        simp only [hest, if_true]
        rfl
      · refine ⟨[FsOp.pathExists p, FsOp.rmtree p, FsOp.pathExists p,
          FsOp.makeRequest, FsOp.getArchived,
          FsOp.load (normalize_energy_source pr.energy_source)
            pr.output_type], ?_⟩
        unfold resolve_step mismatch_purge
        rw [hpath]
        simp only [if_true, hfs]
        simp only [fsExists_fsRemove_self, Bool.false_eq_true, reduceIte]
        rw [hmr, hga]
        unfold load_phase
        rw [hload]
        simp only [hest, if_true]
        rfl
    obtain ⟨tr2, hr⟩ := hr
    rw [hh, hr]
    have hitem : innerLookup (cacheSet st.loaded_model pr.output_type
        (normalize_energy_source pr.energy_source) item) pr.output_type
        (normalize_energy_source pr.energy_source) = some item :=
      innerLookup_cacheSet_self _ _ _ _
    have hps := predict_step_spec env pr.output_type
      (normalize_energy_source pr.energy_source) q
      (EstState.mk (cacheSet st.loaded_model pr.output_type
          (normalize_energy_source pr.energy_source) item)
        (fsRemove st.fs p)) tr2 item hitem
    simp only []
    rw [hps.2.1]
    exact hitem

/-- Witness for the amended claim C5 at a concrete input: trainer B is
requested against cached trainer A with the artifact on disk; the trace
opens with the deletion, and with remote resolution and a successful load
of a trainer B model, that model ends up installed. -/
theorem C5_witness :
    (handle_request envSwapTrainer "req5w"
        stCachedWithArtifact).2.2.take 2 =
      [FsOp.pathExists "/download/AbsPower/rapl-sysfs",
        FsOp.rmtree "/download/AbsPower/rapl-sysfs"] ∧
    innerLookup (handle_request envSwapTrainer "req5w"
        stCachedWithArtifact).2.1.loaded_model reqAbsB.output_type
        (normalize_energy_source reqAbsB.energy_source) = some itemB :=
  let h := C5_swap_when_enabled envSwapTrainer "req5w" stCachedWithArtifact
    reqAbsB handleA "B" "/download/AbsPower/rapl-sysfs"
    rfl rfl rfl (by decide) (by decide) (by decide) (by decide) (by decide)
    (by decide)
  ⟨h.1, h.2 itemB "/remote/AbsPower" rfl rfl (Or.inl rfl)⟩

/-- Claim C6: a request hitting a cached model for its key pair with no
trainer mismatch performs no filesystem or resolver operation (empty
operation trace), leaves the state identical, and returns the prediction of
the cached handle; consequently arbitrarily many repeated identical
requests leave the state fixed and keep serving the very same handle. -/
theorem C6_cache_hit_no_fs (env : Env) (data : String) (st : EstState)
    (pr : PowerRequest) (hdl : ModelHandle)
    (hparse : env.parse data = Except.ok pr)
    (hsup : env.is_output_type_supported pr.output_type = true)
    (hinner : innerLookup st.loaded_model pr.output_type
        (normalize_energy_source pr.energy_source) = some hdl)
    (hmm : mismatch_trainer env st.loaded_model pr.output_type
        (normalize_energy_source pr.energy_source) pr.trainer_name
        = false) :
    handle_request env data st =
      (HandleOutcome.response (env.get_power hdl).1 (env.get_power hdl).2,
        st, []) ∧
    ∀ n, handle_iter env data n st = st := by
  have h1 := handle_cache_hit_run env data st pr hdl hparse hsup hinner hmm
  refine ⟨h1, ?_⟩
  intro n
  induction n with
  | zero => rfl
  | succ k ih =>
      show handle_iter env data k (handle_request env data st).2.1 = st
      rw [h1]
      exact ih

/-- Witness for claim C6 at a concrete input. -/
theorem C6_witness :
    handle_request envHit "req6" stCachedWithArtifact =
      (HandleOutcome.response (envHit.get_power handleA).1
          (envHit.get_power handleA).2,
        stCachedWithArtifact, []) ∧
    ∀ n, handle_iter envHit "req6" n stCachedWithArtifact
      = stCachedWithArtifact :=
  C6_cache_hit_no_fs envHit "req6" stCachedWithArtifact reqAbs handleA rfl
    (by decide) (by decide) (by decide)

/-- Claim C7: a request with an unsupported output type is answered with
empty powers and a non-empty message, the state is returned unchanged and
no operation is performed, so no cache mutation of any kind takes place. -/
theorem C7_unsupported_rejected (env : Env) (data : String) (st : EstState)
    (pr : PowerRequest)
    (hparse : env.parse data = Except.ok pr)
    (hsup : env.is_output_type_supported pr.output_type = false) :
    handle_request env data st =
      (HandleOutcome.response []
        ("output type " ++ pr.output_type ++ " is not supported"),
        st, []) ∧
    ("output type " ++ pr.output_type ++ " is not supported") ≠ "" := by
  constructor
  · unfold handle_request
    rw [hparse]
    simp [hsup]
  · exact str_append_ne_empty_left "output type "
      (pr.output_type ++ " is not supported") (by decide)

/-- Witness for claim C7 at a concrete input. -/
theorem C7_witness :
    handle_request envUnsupported "reqU" stCachedWithArtifact =
      (HandleOutcome.response []
        ("output type " ++ reqUnknown.output_type ++ " is not supported"),
        stCachedWithArtifact, []) ∧
    ("output type " ++ reqUnknown.output_type ++ " is not supported")
      ≠ "" :=
  C7_unsupported_rejected envUnsupported "reqU" stCachedWithArtifact
    reqUnknown rfl (by decide)

/-- Claim C8: the claim states the framing loop accumulates stripped chunks
until the accumulated buffer ends in the closing brace and then terminates
without crashing, including for sequences containing empty chunks from a
closed peer.  The code violates this: its dead None guard never fires, so
an empty stripped chunk makes the indexing of the last byte raise an
IndexError.  Here the accumulated content of the two chunks ends in the
closing brace, yet the loop crashes on the leading empty chunk. -/
theorem C8_crash_on_empty_chunk :
    (pyStripChars [] ++
        pyStripChars [Char.ofNat 123, Char.ofNat 125]).getLast? =
      some closingBrace ∧
    accepted_loop [[], [Char.ofNat 123, Char.ofNat 125]] [] =
      AcceptedResult.crash := by
  decide

/-- Claim C9: whenever the loader fails to yield a usable handle (a None
item or a None estimator), the cache entry for the key pair is the same
after the call as before it, whatever the resolvers and the filesystem did. -/
theorem C9_load_failure_preserves_entry (env : Env) (data : String)
    (st : EstState) (pr : PowerRequest) (prior : ModelHandle)
    (hparse : env.parse data = Except.ok pr)
    (hsup : env.is_output_type_supported pr.output_type = true)
    (hprior : innerLookup st.loaded_model pr.output_type
        (normalize_energy_source pr.energy_source) = some prior)
    (hload : ∀ it, env.load_downloaded_model = some it →
        it.has_estimator = false) :
    innerLookup (handle_request env data st).2.1.loaded_model pr.output_type
        (normalize_energy_source pr.energy_source) = some prior := by
  have houter := outer_present_of_inner _ _ _ _ hprior
  have hlz := lazyInit_of_present st.loaded_model pr.output_type houter
  unfold handle_request
  rw [hparse]
  simp only [hsup, if_true, hlz, hprior]
  simp only [Option.isNone_some, Bool.false_or]
  rw [show ({ st with loaded_model := st.loaded_model } : EstState) = st
    from rfl]
  cases hb : mismatch_trainer env st.loaded_model pr.output_type
      (normalize_energy_source pr.energy_source) pr.trainer_name with
  | false =>
      simp only [Bool.false_eq_true, if_false]
      have hps := predict_step_spec env pr.output_type
        (normalize_energy_source pr.energy_source) "" st [] prior hprior
      rw [hps.2.1]
      exact hprior
  | true =>
      simp only [if_true]
      have hcache := resolve_step_cache_of_load_fail env data pr.output_type
        (normalize_energy_source pr.energy_source) true st hload
      cases hr : resolve_step env data pr.output_type
          (normalize_energy_source pr.energy_source) true st with
      | fail m st2 tr =>
          rw [hr] at hcache
          simp only []
          rw [show (ResolveResult.fail m st2 tr).state = st2 from rfl]
            at hcache
          rw [hcache]
          exact hprior
      | ok op st2 tr =>
          rw [hr] at hcache
          rw [show (ResolveResult.ok op st2 tr).state = st2 from rfl]
            at hcache
          simp only []
          have hinner2 : innerLookup st2.loaded_model pr.output_type
              (normalize_energy_source pr.energy_source) = some prior := by
            rw [hcache]; exact hprior
          have hps := predict_step_spec env pr.output_type
            (normalize_energy_source pr.energy_source) op st2 tr prior
            hinner2
          rw [hps.2.1]
          exact hinner2

/-- Witness for claim C9 at a concrete input: trainer B is requested against
cached trainer A, the remote resolver succeeds, the loader fails, and the
cached trainer A handle survives. -/
theorem C9_witness :
    innerLookup (handle_request envReloadFail "req9"
        stCachedWithArtifact).2.1.loaded_model reqAbsB.output_type
        (normalize_energy_source reqAbsB.energy_source) = some handleA :=
  C9_load_failure_preserves_entry envReloadFail "req9" stCachedWithArtifact
    reqAbsB handleA rfl (by decide) (by decide)
    (by intro it h; simp [envReloadFail, envBase] at h)

/-- Claim C10: energy-source normalization maps a null source and any
source containing the substring rapl to the fixed identifier rapl-sysfs,
and leaves every other non-null source unchanged. -/
theorem C10_normalization :
    normalize_energy_source none = "rapl-sysfs" ∧
    (∀ s, strContains s "rapl" = true →
      normalize_energy_source (some s) = "rapl-sysfs") ∧
    (∀ s, strContains s "rapl" = false →
      normalize_energy_source (some s) = s) := by
  refine ⟨rfl, ?_, ?_⟩ <;> intro s h <;> simp [normalize_energy_source, h]

/-- Witness for claim C10 at concrete inputs. -/
theorem C10_witness :
    normalize_energy_source (some "intel-rapl") = "rapl-sysfs" ∧
    normalize_energy_source (some "acpi") = "acpi" :=
  ⟨C10_normalization.2.1 "intel-rapl" (by decide),
   C10_normalization.2.2 "acpi" (by decide)⟩
